import Mathlib

/-!
Shallow embedding of the KnowHow booking/payment backend (Express route
handlers over a Supabase record store, Cashfree and Razorpay payment
gateways).  Route handlers are modelled as pure functions from a request,
the responses of the external gateway calls they perform, and the record
store, to a response and an updated store.  The record store is modelled as
three in-memory tables (`bookings`, `orders`, `payments`); Supabase
`insert` is an append, `update ... eq` rewrites every matching row, and
`single()` succeeds only when exactly one row matches.
-/

namespace KnowHow

/-- Truthiness of a JS string: the empty string is falsy. -/
def jsTruthy (s : String) : Bool := !s.isEmpty

/-- Truthiness of a possibly-undefined JS string: `undefined` and `""` are falsy. -/
def jsTruthyOpt (o : Option String) : Bool :=
  match o with
  | none => false
  | some s => !s.isEmpty

/-- JS `a || b` on strings. -/
def jsOrStr (a b : String) : String := if a.isEmpty then b else a

/-- JS `a || b` where `a` may be undefined, with a string default. -/
def jsOr (a : Option String) (b : String) : String :=
  match a with
  | none => b
  | some s => if s.isEmpty then b else s

/-- JS `a || b` on two possibly-undefined strings (the result may itself be falsy). -/
def jsOrOpt (a b : Option String) : Option String :=
  if jsTruthyOpt a then a else b

/-- JS `a || b` on a possibly-undefined number: `undefined` and `0` are falsy. -/
def jsOrQ (a : Option ℚ) (b : ℚ) : ℚ :=
  match a with
  | none => b
  | some x => if x = 0 then b else x

/-- JS `Math.round`: rounds half towards positive infinity. -/
def jsRound (q : ℚ) : ℤ := ⌊q + 1/2⌋

/-- JS `String.prototype.startsWith`, on character lists. -/
def jsStartsWith (s pat : String) : Bool := pat.data.isPrefixOf s.data

/-- Occurrence of a character sequence inside another, by scanning suffixes. -/
def listIsInfix (pat : List Char) : List Char → Bool
  | [] => pat.isEmpty
  | c :: rest => pat.isPrefixOf (c :: rest) || listIsInfix pat rest

/-- JS `String.prototype.includes`, on character lists. -/
def jsIncludes (s pat : String) : Bool := listIsInfix pat.data s.data

/-- JS `s.toLowerCase().trim()`. -/
def jsNorm (s : String) : String := s.toLower.trim

/-- Row of the `bookings` table (create-bookings-table.sql plus the Cashfree
and balance-payment columns used by the route handlers). -/
structure Booking where
  id : Nat
  user_id : Option String
  user_email : String
  user_name : String
  user_phone : String
  user_address : Option String
  activity_name : String
  combo_name : Option String
  selected_activities : List String
  booking_date : String
  booking_time_slot : String
  participants : Nat
  amount : ℚ
  currency : String
  payment_status : String
  status : String
  payment_method : Option String
  internal_bill_id : Option String
  cashfree_order_id : Option String
  cashfree_payment_id : Option String
  cashfree_payment_session_id : Option String
  razorpay_order_id : Option String
  razorpay_payment_id : Option String
  razorpay_signature : Option String
  refund_id : Option String
  refund_status : Option String
  refund_amount : Option ℚ
  refund_reason : Option String
  balance_payment_order_id : Option String
  balance_payment_id : Option String
  balance_payment_status : Option String
  balance_payment_method : Option String
  balance_amount : Option ℚ
deriving DecidableEq

/-- Neutral booking row used as a template for concrete test rows. -/
def Booking.base : Booking :=
  { id := 0, user_id := none, user_email := "", user_name := "", user_phone := ""
    user_address := none
    activity_name := "", combo_name := none, selected_activities := []
    booking_date := "", booking_time_slot := "", participants := 1
    amount := 0, currency := "INR", payment_status := "pending_payment"
    status := "pending", payment_method := none, internal_bill_id := none
    cashfree_order_id := none, cashfree_payment_id := none
    cashfree_payment_session_id := none, razorpay_order_id := none
    razorpay_payment_id := none, razorpay_signature := none
    refund_id := none, refund_status := none, refund_amount := none
    refund_reason := none, balance_payment_order_id := none
    balance_payment_id := none, balance_payment_status := none
    balance_payment_method := none, balance_amount := none }

/-- Row of the `payments` ledger table (the columns the payment routes read or write). -/
structure PaymentRow where
  cashfree_payment_id : Option String
  cashfree_order_id : Option String
  internal_bill_id : Option String
  order_type : String
  amount : ℚ
  currency : String
  status : String
  method : String
  email : Option String
  contact : Option String
  refund_status : Option String
  refund_amount : Option ℚ
  refund_ids : Option (List String)
deriving DecidableEq

/-- Neutral payments row used as a template for concrete test rows. -/
def PaymentRow.base : PaymentRow :=
  { cashfree_payment_id := none, cashfree_order_id := none
    internal_bill_id := none, order_type := "booking", amount := 0
    currency := "INR", status := "paid", method := "upi", email := none
    contact := none, refund_status := none, refund_amount := none
    refund_ids := none }

/-- Row of the DIY `orders` table (the columns the webhook reads or writes). -/
structure DIYOrder where
  internal_bill_id : String
  cashfree_order_id : Option String
  cashfree_payment_id : Option String
  amount : ℚ
  currency : String
  status : String
  payment_method : Option String
  customer_email : String
  customer_phone : String
deriving DecidableEq

/-- Neutral DIY order row used as a template for concrete test rows. -/
def DIYOrder.base : DIYOrder :=
  { internal_bill_id := "", cashfree_order_id := none
    cashfree_payment_id := none, amount := 0, currency := "INR"
    status := "created", payment_method := none, customer_email := ""
    customer_phone := "" }

/-- The record store: the three logical tables the payment routes touch. -/
structure DB where
  bookings : List Booking
  orders : List DIYOrder
  payments : List PaymentRow
deriving DecidableEq

/-- Supabase `update(f).eq(p)`: rewrites every row matching `p`. -/
def updateWhere (p : α → Bool) (f : α → α) (l : List α) : List α :=
  l.map (fun x => if p x then f x else x)

/-- Supabase `select().single()`: succeeds only when exactly one row matches. -/
def selectSingle (p : α → Bool) (l : List α) : Option α :=
  match l.filter p with
  | [x] => some x
  | _ => none

/-- Number of rows matching a filter (used to decide whether `single()` errors). -/
def countWhere (p : α → Bool) (l : List α) : Nat := (l.filter p).length

/- ===================== Slot Availability Engine ===================== -/

/-- Fixed slot list per activity, via the normalized fuzzy name match of
GET /available-slots (Cashfree variant, src/routes/payments.js). -/
def slotsFor (activity_name : String) : List String :=
  let normalizedActivityName := jsNorm activity_name
  if jsIncludes normalizedActivityName "jewellery" ||
      jsIncludes normalizedActivityName "jewelry making" then
    ["11am-1pm", "1-3pm", "3-5pm", "5-7pm", "7-9pm"]
  else if jsIncludes normalizedActivityName "tufting" then
    ["11am-1:30pm", "2-4:30pm", "5-7:30pm"]
  else
    ["11am-1pm", "1-3pm", "3-5pm", "5-8pm"]

/-- The DB-side filter of the available-slots query: same date, status
pending or confirmed, payment_status not refunded. -/
def activeOnDate (booking_date : String) (b : Booking) : Bool :=
  b.booking_date == booking_date &&
  (b.status == "pending" || b.status == "confirmed") &&
  b.payment_status != "refunded"

/-- The JS-side activity match of the available-slots handler: equality or
substring containment, case-insensitive, against activity_name, and
equality against combo_name. -/
def matchesActivity (activity_name : String) (b : Booking) : Bool :=
  let bookingActivity := jsNorm b.activity_name
  let bookingCombo := jsNorm (jsOr b.combo_name "")
  let searchActivity := jsNorm activity_name
  bookingActivity == searchActivity ||
  bookingCombo == searchActivity ||
  jsIncludes bookingActivity searchActivity ||
  jsIncludes searchActivity bookingActivity

/-- Response body of GET /available-slots. -/
structure SlotsResp where
  available_slots : List String
  all_slots : List String
  booked_slots : List String
deriving DecidableEq

/-- GET /available-slots (Cashfree variant): fixed slots for the activity,
minus the slots of active bookings on that date that match the activity. -/
def availableSlots (activity_name booking_date : String)
    (bookings : List Booking) : SlotsResp :=
  let timeSlots := slotsFor activity_name
  let allBookings := bookings.filter (activeOnDate booking_date)
  let bookedSlots : List String :=
    (allBookings.filter (matchesActivity activity_name)).map
      (fun b => b.booking_time_slot)
  let avail := timeSlots.filter (fun slot : String => !(decide (slot ∈ bookedSlots)))
  { available_slots := avail, all_slots := timeSlots
    booked_slots := bookedSlots }

/-- A slot label is held when some booking on that exact date, with status
pending or confirmed and payment_status not refunded, whose activity or
combo name matches the queried activity, occupies that slot. -/
def slotHeld (activity_name booking_date slot : String)
    (bookings : List Booking) : Prop :=
  ∃ b ∈ bookings,
    b.booking_date = booking_date ∧
    (b.status = "pending" ∨ b.status = "confirmed") ∧
    b.payment_status ≠ "refunded" ∧
    matchesActivity activity_name b = true ∧
    b.booking_time_slot = slot

/- ===================== Order id generation ===================== -/

/-- Order id generated by POST /create-order: `KH-<timestamp>-<random>`,
where the timestamp is the ISO timestamp with `-` and `:` removed (so it
begins with a year digit) and the random part is four base-36 digits. -/
def mkBookingOrderId (timestamp random : String) : String :=
  "KH-" ++ timestamp ++ "-" ++ random

/-- Order id generated by POST /create-diy-order: `KH-DIY-<timestamp>-<random>`. -/
def mkDIYOrderId (timestamp random : String) : String :=
  "KH-DIY-" ++ timestamp ++ "-" ++ random

/-- Webhook classification: an event belongs to a DIY order iff its order id
starts with `KH-DIY-`. -/
def isDIYOrderId (orderId : String) : Bool := jsStartsWith orderId "KH-DIY-"

/- ===================== Webhook Reconciler ===================== -/

/-- Truthiness of a possibly-undefined JS number: `undefined` and `0` are falsy. -/
def jsTruthyQ (o : Option ℚ) : Bool :=
  match o with
  | none => false
  | some x => decide (x ≠ 0)

/-- JS `a >= b` on numbers, as an executable boolean. -/
def jsGe (a b : ℚ) : Bool := !(Rat.blt a b)

/-- Customer block inside a Cashfree webhook payment object. -/
structure CfCustomerDetails where
  customer_email : Option String
  customer_phone : Option String
deriving DecidableEq

/-- Payment object of a Cashfree webhook event (`event.data.payment`). -/
structure CfPaymentData where
  payment_id : Option String
  payment_status : Option String
  payment_method : Option String
  payment_amount : Option ℚ
  payment_currency : Option String
  customer_details : Option CfCustomerDetails
deriving DecidableEq

/-- The empty object used for `event.data?.payment || {}`. -/
def CfPaymentData.empty : CfPaymentData :=
  { payment_id := none, payment_status := none, payment_method := none
    payment_amount := none, payment_currency := none, customer_details := none }

/-- Order object of a Cashfree webhook event (`event.data.order`). -/
structure CfOrderData where
  order_id : Option String
deriving DecidableEq

/-- Refund object of a Cashfree webhook event (`event.data.refund`). -/
structure CfRefundData where
  refund_id : Option String
  refund_amount : Option ℚ
  refund_status : Option String
deriving DecidableEq

/-- The empty object used for `event.data?.refund || {}`. -/
def CfRefundData.empty : CfRefundData :=
  { refund_id := none, refund_amount := none, refund_status := none }

/-- Data block of a Cashfree webhook event. -/
structure CfEventData where
  order : Option CfOrderData
  payment : Option CfPaymentData
  refund : Option CfRefundData
deriving DecidableEq

/-- A parsed Cashfree webhook event. -/
structure CfEvent where
  type : String
  data : Option CfEventData
deriving DecidableEq

/-- Extraction `event.data?.order?.order_id`. -/
def CfEvent.orderIdOf (e : CfEvent) : Option String :=
  (e.data.bind (fun d => d.order)).bind (fun o => o.order_id)

/-- Extraction `event.data?.payment || {}`. -/
def CfEvent.paymentDataOf (e : CfEvent) : CfPaymentData :=
  (e.data.bind (fun d => d.payment)).getD CfPaymentData.empty

/-- Extraction `event.data?.refund || {}`. -/
def CfEvent.refundDataOf (e : CfEvent) : CfRefundData :=
  (e.data.bind (fun d => d.refund)).getD CfRefundData.empty

/-- Response of the webhook route. -/
inductive WebhookResp where
  | secretMissing
  | invalidSignature
  | missingFields
  | ok
deriving DecidableEq

/-- Payments-ledger row inserted by the webhook success branch for a booking. -/
def mkWebhookPaymentRowBooking (paymentId orderId paymentMethod : String)
    (paymentData : CfPaymentData) (booking : Booking) : PaymentRow :=
  { cashfree_payment_id := some paymentId
    cashfree_order_id := some orderId
    internal_bill_id := some (jsOr booking.internal_bill_id orderId)
    order_type := "booking"
    amount := jsOrQ paymentData.payment_amount
      ((jsRound (booking.amount * 100) : ℤ) : ℚ)
    currency := jsOr paymentData.payment_currency (jsOrStr booking.currency "INR")
    status := "paid"
    method := paymentMethod
    email := some (jsOr (paymentData.customer_details.bind
      (fun c => c.customer_email)) booking.user_email)
    contact := some (jsOr (paymentData.customer_details.bind
      (fun c => c.customer_phone)) booking.user_phone)
    refund_status := none
    refund_amount := none
    refund_ids := none }

/-- Payments-ledger row inserted by the webhook success branch for a DIY order. -/
def mkWebhookPaymentRowDIY (paymentId orderId paymentMethod : String)
    (paymentData : CfPaymentData) (order : DIYOrder) : PaymentRow :=
  { cashfree_payment_id := some paymentId
    cashfree_order_id := some orderId
    internal_bill_id := some order.internal_bill_id
    order_type := "diy"
    amount := jsOrQ paymentData.payment_amount order.amount
    currency := jsOr paymentData.payment_currency (jsOrStr order.currency "INR")
    status := "paid"
    method := paymentMethod
    email := some (jsOr (paymentData.customer_details.bind
      (fun c => c.customer_email)) order.customer_email)
    contact := some (jsOr (paymentData.customer_details.bind
      (fun c => c.customer_phone)) order.customer_phone)
    refund_status := none
    refund_amount := none
    refund_ids := none }

/-- PAYMENT_SUCCESS_WEBHOOK stage of the webhook: update the owning row and
append a payments-ledger row, on whichever table the order id classifies to. -/
def webhookStageSuccess (isDIYOrder : Bool) (orderId paymentId : String)
    (paymentData : CfPaymentData) (db : DB) : DB :=
  let paymentMethod := jsOr paymentData.payment_method "unknown"
  if isDIYOrder then
    match selectSingle (fun o => o.cashfree_order_id == some orderId)
        db.orders with
    | some order =>
      let orders2 := updateWhere
        (fun o => o.cashfree_order_id == some orderId)
        (fun o => { o with
          cashfree_payment_id := some paymentId
          status := "paid"
          payment_method := some paymentMethod }) db.orders
      { db with
        orders := orders2
        payments := db.payments ++
          [mkWebhookPaymentRowDIY paymentId orderId paymentMethod
            paymentData order] }
    | none => db
  else
    match selectSingle (fun b => b.cashfree_order_id == some orderId)
        db.bookings with
    | some booking =>
      let bookings2 := updateWhere
        (fun b => b.cashfree_order_id == some orderId)
        (fun b => { b with
          cashfree_payment_id := some paymentId
          payment_status := "paid"
          payment_method := some paymentMethod
          status := "confirmed" }) db.bookings
      { db with
        bookings := bookings2
        payments := db.payments ++
          [mkWebhookPaymentRowBooking paymentId orderId paymentMethod
            paymentData booking] }
    | none => db

/-- PAYMENT_FAILED_WEBHOOK stage of the webhook: unconditionally mark the
owning row failed (bookings revert to status pending). -/
def webhookStageFailed (isDIYOrder : Bool) (orderId paymentId : String)
    (db : DB) : DB :=
  if isDIYOrder then
    { db with
      orders := updateWhere
        (fun o => o.cashfree_order_id == some orderId)
        (fun o => { o with
          cashfree_payment_id := some paymentId
          status := "failed" }) db.orders }
  else
    { db with
      bookings := updateWhere
        (fun b => b.cashfree_order_id == some orderId)
        (fun b => { b with
          cashfree_payment_id := some paymentId
          payment_status := "failed"
          status := "pending" }) db.bookings }

/-- REFUND_WEBHOOK stage of the webhook (bookings only): write the refund
sub-state onto the booking and unconditionally add the refund amount to the
payments-ledger aggregate. -/
def webhookStageRefund (orderId paymentId : String)
    (refundData : CfRefundData) (db : DB) : DB :=
  let refundIdOpt := refundData.refund_id
  let refundAmount := refundData.refund_amount
  let refundStatus := refundData.refund_status
  if jsTruthyOpt refundIdOpt then
    let refundId := refundIdOpt.getD ""
    let bookings2 := updateWhere
      (fun b => b.cashfree_order_id == some orderId)
      (fun b => { b with
        refund_id := some refundId
        refund_status := some (if refundStatus == some "SUCCESS"
          then "processed" else "initiated")
        refund_amount := if jsTruthyQ refundAmount
          then some (refundAmount.getD 0 / 100) else none
        payment_status := if refundStatus == some "SUCCESS"
          then "refunded" else "paid" }) db.bookings
    let dbA := { db with bookings := bookings2 }
    match selectSingle (fun p => p.cashfree_order_id == some orderId)
        dbA.payments with
    | some payment =>
      let newRefundAmount :=
        jsOrQ payment.refund_amount 0 + jsOrQ refundAmount 0
      let newRefundStatus : String :=
        if jsGe newRefundAmount payment.amount then "full" else "partial"
      { dbA with
        payments := updateWhere
          (fun p => p.cashfree_payment_id == some paymentId)
          (fun p => { p with
            refund_status := some newRefundStatus
            refund_amount := some newRefundAmount
            refund_ids := some ((payment.refund_ids.getD []) ++ [refundId])
            status := if newRefundStatus == "full"
              then "refunded" else "partially_refunded" }) dbA.payments }
    | none => dbA
  else db

/-- Core of POST /webhook after signature verification: classify the event
and apply the corresponding table mutations (src/routes/payments.js 516-761). -/
def processWebhookEvent (event : CfEvent) (db : DB) : WebhookResp × DB :=
  let orderIdOpt := event.orderIdOf
  let paymentData := event.paymentDataOf
  let paymentIdOpt := paymentData.payment_id
  if !(jsTruthyOpt orderIdOpt) || !(jsTruthyOpt paymentIdOpt) then
    (.missingFields, db)
  else
    let orderId := orderIdOpt.getD ""
    let paymentId := paymentIdOpt.getD ""
    let isDIYOrder := isDIYOrderId orderId
    let db1 :=
      if event.type == "PAYMENT_SUCCESS_WEBHOOK" then
        webhookStageSuccess isDIYOrder orderId paymentId paymentData db
      else db
    let db2 :=
      if event.type == "PAYMENT_FAILED_WEBHOOK" then
        webhookStageFailed isDIYOrder orderId paymentId db1
      else db1
    let db3 :=
      if event.type == "REFUND_WEBHOOK" && !isDIYOrder then
        webhookStageRefund orderId paymentId event.refundDataOf db2
      else db2
    (.ok, db3)

/-- POST /webhook (Cashfree): verify the HMAC of the raw body against the
signature header using the API secret key, then process the parsed event.
The HMAC and JSON parsing are abstract parameters of the embedding. -/
def cashfreeWebhook (hmacB64 : String → String → String)
    (apiSecretKey : Option String) (signature : Option String)
    (rawBody : String) (parse : String → CfEvent) (db : DB) :
    WebhookResp × DB :=
  if !(jsTruthyOpt apiSecretKey) then (.secretMissing, db)
  else
    let text := rawBody
    let generatedSignature := hmacB64 (apiSecretKey.getD "") text
    if some generatedSignature != signature then (.invalidSignature, db)
    else processWebhookEvent (parse text) db

/- ===================== Payment Verifier ===================== -/

/-- JS `a <= b` on numbers, as an executable boolean. -/
def jsLe (a b : ℚ) : Bool := !(Rat.blt b a)

/-- Body of POST /verify-payment in the Razorpay variant. -/
structure RzpVerifyReq where
  razorpay_order_id : String
  razorpay_payment_id : String
  razorpay_signature : String
deriving DecidableEq

/-- Payment object returned by the authoritative Razorpay payment fetch. -/
structure RzpPayment where
  status : String
  method : String
deriving DecidableEq

/-- Response of POST /verify-payment in the Razorpay variant. -/
inductive RzpVerifyResult where
  | notConfigured
  | missingDetails
  | invalidSignature
  | balanceUpdateFailed
  | balancePaid (b : Booking)
  | updateFailed
  | done (payment_status : String) (b : Booking)
deriving DecidableEq

/-- Regular (non-balance) update of the Razorpay verify-payment route:
rewrite the booking matched by razorpay_order_id, failing when not exactly
one row matches. -/
def razorpayRegularVerify (req : RzpVerifyReq) (payment : RzpPayment)
    (db : DB) : RzpVerifyResult × DB :=
  let captured := payment.status == "captured"
  let bookings2 := updateWhere
    (fun b => b.razorpay_order_id == some req.razorpay_order_id)
    (fun b => { b with
      razorpay_payment_id := some req.razorpay_payment_id
      razorpay_signature := some req.razorpay_signature
      payment_status := if captured then "paid" else "failed"
      payment_method := some payment.method
      status := if captured then "confirmed" else "pending" }) db.bookings
  let db2 := { db with bookings := bookings2 }
  match selectSingle
      (fun b => b.razorpay_order_id == some req.razorpay_order_id)
      db2.bookings with
  | some b2 => (.done (if captured then "paid" else "failed") b2, db2)
  | none => (.updateFailed, db2)

/-- Processing of the Razorpay verify-payment route after a successful
signature check: balance-payment bookings first, then the regular update. -/
def razorpayVerifyAfterSignature (req : RzpVerifyReq) (payment : RzpPayment)
    (db : DB) : RzpVerifyResult × DB :=
  match selectSingle
      (fun b => b.balance_payment_order_id == some req.razorpay_order_id)
      db.bookings with
  | some eb =>
    if payment.status == "captured" then
      let bookings2 := updateWhere (fun b => b.id == eb.id)
        (fun b => { b with
          balance_payment_id := some req.razorpay_payment_id
          balance_payment_status := some "paid"
          balance_payment_method := some payment.method
          amount := eb.amount + jsOrQ eb.balance_amount 0 }) db.bookings
      let db2 := { db with bookings := bookings2 }
      match selectSingle (fun b => b.id == eb.id) db2.bookings with
      | some b2 => (.balancePaid b2, db2)
      | none => (.balanceUpdateFailed, db2)
    else razorpayRegularVerify req payment db
  | none => razorpayRegularVerify req payment db

/-- POST /verify-payment (Razorpay variant, src/unnamed/part_001 178-284):
recompute the HMAC-SHA256 of order_id|payment_id under the key secret and
compare with the supplied signature; on mismatch reject with
InvalidSignature and touch nothing; on match fetch the payment and update
the matched booking (balance payments first, then the regular path).  The
HMAC itself is an abstract parameter of the embedding. -/
def razorpayVerifyPayment (hmac : String → String → String) (secret : String)
    (configured : Bool) (req : RzpVerifyReq) (payment : RzpPayment)
    (db : DB) : RzpVerifyResult × DB :=
  if !configured then (.notConfigured, db)
  else if req.razorpay_order_id.isEmpty || req.razorpay_payment_id.isEmpty ||
      req.razorpay_signature.isEmpty then (.missingDetails, db)
  else
    let text := req.razorpay_order_id ++ "|" ++ req.razorpay_payment_id
    let generatedSignature := hmac secret text
    if generatedSignature != req.razorpay_signature then (.invalidSignature, db)
    else razorpayVerifyAfterSignature req payment db

/-- Body of POST /verify-payment in the Cashfree variant.  The handler
destructures only cashfree_order_id and cashfree_payment_id from the body;
a signature field sent by the client is carried here to show it is never
read. -/
structure CfVerifyReq where
  cashfree_order_id : String
  cashfree_payment_id : String
  signature : String
deriving DecidableEq

/-- Payment object returned by the authoritative Cashfree payment fetch. -/
structure CfPaymentFetch where
  payment_status : String
  payment_method : Option String
deriving DecidableEq

/-- Response of POST /verify-payment in the Cashfree variant. -/
inductive CfVerifyResult where
  | notConfigured
  | missingDetails
  | updateFailed
  | done (success : Bool) (payment_status : String) (b : Booking)
deriving DecidableEq

/-- Whether the Cashfree verify response reported success. -/
def CfVerifyResult.isSuccess : CfVerifyResult → Bool
  | .done success _ _ => success
  | _ => false

/-- POST /verify-payment (Cashfree variant, src/routes/payments.js 337-426):
no signature is read; the handler fetches the authoritative payment status
and updates the booking matched by cashfree_order_id, falling back to the
legacy razorpay_order_id column. -/
def cashfreeVerifyPayment (configured : Bool) (req : CfVerifyReq)
    (payment : CfPaymentFetch) (db : DB) : CfVerifyResult × DB :=
  if !configured then (.notConfigured, db)
  else if req.cashfree_order_id.isEmpty || req.cashfree_payment_id.isEmpty then
    (.missingDetails, db)
  else
    let success := payment.payment_status == "SUCCESS"
    let db1 := { db with
      bookings := updateWhere
        (fun b => b.cashfree_order_id == some req.cashfree_order_id)
        (fun b => { b with
          cashfree_payment_id := some req.cashfree_payment_id
          payment_status := if success then "paid" else "failed"
          payment_method := some (jsOr payment.payment_method "unknown")
          status := if success then "confirmed" else "pending" }) db.bookings }
    match selectSingle
        (fun b => b.cashfree_order_id == some req.cashfree_order_id)
        db1.bookings with
    | some b1 => (.done success (if success then "paid" else "failed") b1, db1)
    | none =>
      let db2 := { db1 with
        bookings := updateWhere
          (fun b => b.razorpay_order_id == some req.cashfree_order_id)
          (fun b => { b with
            razorpay_payment_id := some req.cashfree_payment_id
            payment_status := if success then "paid" else "failed"
            payment_method := some (jsOr payment.payment_method "unknown")
            status := if success then "confirmed" else "pending" }) db1.bookings }
      match selectSingle
          (fun b => b.razorpay_order_id == some req.cashfree_order_id)
          db2.bookings with
      | some b2 => (.done success (if success then "paid" else "failed") b2, db2)
      | none => (.updateFailed, db2)

/- ===================== Order/Booking Initiator ===================== -/

/-- A JS request-body amount: a number, a string to be parsed, or absent. -/
inductive JsAmount where
  | num (q : ℚ)
  | str (s : String)
  | missing
deriving DecidableEq

/-- Truthiness of a JS amount value: absent, 0 and the empty string are falsy. -/
def jsTruthyAmount : JsAmount → Bool
  | .missing => false
  | .num q => decide (q ≠ 0)
  | .str s => !s.isEmpty

/-- The coercion `typeof amount === 'string' ? parseFloat(amount) : amount`;
`parseFloat` is an abstract parameter, `none` standing for NaN. -/
def parseAmount (parseFloat : String → Option ℚ) : JsAmount → Option ℚ
  | .num q => some q
  | .str s => parseFloat s
  | .missing => none

/-- JS `n || d` on a possibly-undefined participant count: undefined and 0
are falsy. -/
def jsOrNat (o : Option Nat) (d : Nat) : Nat :=
  match o with
  | none => d
  | some n => if n = 0 then d else n

/-- Phone normalization of POST /create-order: remove non-digits, then strip
a leading 91 country code when more than 10 digits remain. -/
def normalizePhone (phone : String) : String :=
  let digits := String.mk (phone.data.filter Char.isDigit)
  if digits.length > 10 && jsStartsWith digits "91" then
    String.mk (digits.data.drop 2)
  else digits

/-- The slotDetails block of a create-order request body. -/
structure SlotDetails where
  customerName : String
  customerEmail : String
  customerPhone : String
  customerAddress : Option String
  bookingDate : String
  bookingTimeSlot : String
  selectedActivities : Option (List String)
  comboName : Option String
  participants : Option Nat
  notes : Option String
deriving DecidableEq

/-- Error payload of a failed Cashfree order-creation call
(`axiosError.response?.data`): an object, an array of error objects, or
absent. -/
inductive CfErrorData where
  | obj (message : Option String) (error : Option String)
  | arr (head_message : Option String) (head_error : Option String)
  | emptyArr
  | absent
deriving DecidableEq

/-- Extraction of the gateway error message in the create-order catch block:
`message`, else `error`, else the first array element's fields, else the
generic fallback. -/
def extractCfErrorMessage : CfErrorData → String
  | .obj m e => jsOr m (jsOr e "Failed to create payment session with Cashfree.")
  | .arr m e => jsOr m (jsOr e "Failed to create payment session with Cashfree.")
  | .emptyArr => "Failed to create payment session with Cashfree."
  | .absent => "Failed to create payment session with Cashfree."

/-- Successful response body of the Cashfree order-creation call; the
session id is read from `data.payment_session_id` or nested
`data.data.payment_session_id`. -/
structure CfSessionResp where
  payment_session_id : Option String
  data_payment_session_id : Option String
deriving DecidableEq

/-- Response of POST /create-order. -/
inductive CreateOrderResult where
  | notConfigured
  | missingAmountOrSlot
  | missingBookingDetails
  | invalidPhone
  | invalidAmount
  | gatewayError (message : String)
  | invalidGatewayResponse
  | ok (order_id : String) (payment_session_id : String)
deriving DecidableEq

/-- Output of the create-order embedding: the response, the store, and
whether the gateway was called. -/
structure CreateOrderOut where
  result : CreateOrderResult
  db : DB
  gatewayCalled : Bool
deriving DecidableEq

/-- The bookingData row inserted by POST /create-order on gateway success;
the raw body amount (coerced to a number by the store) is modelled as the
parsed amount. -/
def mkBookingRow (newId : Nat) (userId : Option String) (userEmail : String)
    (sd : SlotDetails) (amount : ℚ) (orderId sessionId : String) : Booking :=
  { Booking.base with
    id := newId
    user_id := userId
    user_email := userEmail
    user_name := sd.customerName
    user_phone := sd.customerPhone
    user_address := sd.customerAddress
    activity_name := jsOr (sd.selectedActivities.bind List.head?)
      (jsOr sd.comboName "Activity")
    combo_name := sd.comboName
    selected_activities := sd.selectedActivities.getD []
    booking_date := sd.bookingDate
    booking_time_slot := sd.bookingTimeSlot
    participants := jsOrNat sd.participants 1
    amount := amount
    currency := "INR"
    payment_status := "pending_payment"
    status := "pending"
    internal_bill_id := some orderId
    cashfree_order_id := some orderId
    cashfree_payment_session_id := some sessionId }

/-- POST /create-order (Cashfree, src/routes/payments.js 46-334): validate
the body, call the gateway for a payment session (its outcome is the `gw`
parameter), and on success insert exactly one pending booking row.  The
token decoding, generated id parts and row id are parameters; return and
notify URL construction has no stored effect and is not modelled. -/
def createOrder (configured : Bool) (amount : JsAmount)
    (slotDetails : Option SlotDetails) (userId : Option String)
    (tokenEmail : Option String) (parseFloat : String → Option ℚ)
    (timestamp random : String) (gw : Except CfErrorData CfSessionResp)
    (newId : Nat) (db : DB) : CreateOrderOut :=
  if !configured then ⟨.notConfigured, db, false⟩
  else
    match slotDetails with
    | none => ⟨.missingAmountOrSlot, db, false⟩
    | some sd =>
      if !(jsTruthyAmount amount) then ⟨.missingAmountOrSlot, db, false⟩
      else if sd.customerName.isEmpty || sd.customerEmail.isEmpty ||
          sd.customerPhone.isEmpty || sd.bookingDate.isEmpty ||
          sd.bookingTimeSlot.isEmpty then ⟨.missingBookingDetails, db, false⟩
      else
        let orderId := mkBookingOrderId timestamp random
        let formattedPhone := normalizePhone sd.customerPhone
        if formattedPhone.length ≠ 10 then ⟨.invalidPhone, db, false⟩
        else
          match parseAmount parseFloat amount with
          | none => ⟨.invalidAmount, db, false⟩
          | some orderAmount =>
            if jsLe orderAmount 0 then ⟨.invalidAmount, db, false⟩
            else
              match gw with
              | .error e => ⟨.gatewayError (extractCfErrorMessage e), db, true⟩
              | .ok resp =>
                let sessionIdOpt := jsOrOpt resp.payment_session_id
                  resp.data_payment_session_id
                if !(jsTruthyOpt sessionIdOpt) then
                  ⟨.invalidGatewayResponse, db, true⟩
                else
                  let sessionId := sessionIdOpt.getD ""
                  let row := mkBookingRow newId userId
                    (jsOr tokenEmail sd.customerEmail) sd orderAmount orderId
                    sessionId
                  ⟨.ok orderId sessionId,
                    { db with bookings := db.bookings ++ [row] }, true⟩

/- ===================== Cancellation/Refund Orchestrator ===================== -/

/-- Match of `.eq(column, value)` where the value itself is a nullable
column: SQL equality never matches a null value. -/
def eqSomeCol (a b : Option String) : Bool :=
  match b with
  | none => false
  | some v => a == some v

/-- Order details fetched from the gateway during cancellation. -/
structure GwOrderDetails where
  order_amount : Option ℚ
deriving DecidableEq

/-- One refund entry of the gateway refund history. -/
structure GwRefundEntry where
  refund_amount : Option ℚ
deriving DecidableEq

/-- Error of the gateway refund-creation call, reduced to its message
(`refundError.response?.data?.message || refundError.message`). -/
structure GwRefundErr where
  message : String
deriving DecidableEq

/-- Successful gateway refund-creation response. -/
structure GwRefundResp where
  refund_id : String
deriving DecidableEq

/-- Outcomes of the three gateway calls POST /cancel-booking can make. -/
structure CancelEnv where
  orderFetch : Except Unit GwOrderDetails
  refundsFetch : Except Unit (List GwRefundEntry)
  refundCreate : Except GwRefundErr GwRefundResp

/-- Response of POST /cancel-booking. -/
inductive CancelResult where
  | notConfigured
  | notFound
  | notRefundable
  | alreadyCancelled
  | orderIdMissing
  | nothingToRefund
  | refundExceedsBalance
  | gatewayError (message : String)
  | ok (refund_id : String) (refund_amount_rupees : ℚ)
deriving DecidableEq

/-- Output of the cancel-booking embedding: the response, the store, and
whether a refund request was sent to the gateway. -/
structure CancelOut where
  result : CancelResult
  db : DB
  refundRequested : Bool
deriving DecidableEq

/-- Three-tier computation of (original captured, already refunded) in paise:
gateway order plus refund history; else the payments row; else the
booking's own amount with nothing refunded. -/
def cancelRefundAmounts (env : CancelEnv) (orderId : String)
    (booking : Booking) (payments : List PaymentRow) : ℚ × ℚ :=
  match env.orderFetch with
  | .ok od =>
    let originalAmountInPaise := jsOrQ od.order_amount 0
    let alreadyRefundedInPaise :=
      match env.refundsFetch with
      | .ok refunds => (refunds.map (fun r => jsOrQ r.refund_amount 0)).sum
      | .error _ => 0
    (originalAmountInPaise, alreadyRefundedInPaise)
  | .error _ =>
    match selectSingle (fun p => p.cashfree_order_id == some orderId)
        payments with
    | some payment => (payment.amount, jsOrQ payment.refund_amount 0)
    | none => (((jsRound (booking.amount * 100) : ℤ) : ℚ), 0)

/-- POST /cancel-booking/:booking_id (Cashfree, src/routes/payments.js
764-994): check the preconditions, compute the refundable remainder, issue
the gateway refund (outcome in `env`), then update the booking and the
payments-ledger aggregates. -/
def cancelBooking (configured : Bool) (env : CancelEnv) (booking_id : Nat)
    (reason : Option String) (db : DB) : CancelOut :=
  if !configured then ⟨.notConfigured, db, false⟩
  else
    match selectSingle (fun b => b.id == booking_id) db.bookings with
    | none => ⟨.notFound, db, false⟩
    | some booking =>
      if booking.payment_status != "paid" then ⟨.notRefundable, db, false⟩
      else if booking.status == "cancelled" then ⟨.alreadyCancelled, db, false⟩
      else
        let orderIdOpt := jsOrOpt booking.cashfree_order_id
          booking.razorpay_order_id
        if !(jsTruthyOpt orderIdOpt) then ⟨.orderIdMissing, db, false⟩
        else
          let orderId := orderIdOpt.getD ""
          let amounts := cancelRefundAmounts env orderId booking db.payments
          let refundableAmountInPaise := amounts.1 - amounts.2
          if jsLe refundableAmountInPaise 0 then ⟨.nothingToRefund, db, false⟩
          else
            let refundAmountInPaise := refundableAmountInPaise
            match env.refundCreate with
            | .error e =>
              if jsIncludes e.message
                  "cannot be greater than the transaction amount" then
                ⟨.refundExceedsBalance, db, true⟩
              else ⟨.gatewayError e.message, db, true⟩
            | .ok refund =>
              let refundAmountInRupees := refundAmountInPaise / 100
              let bookings2 := updateWhere (fun b => b.id == booking_id)
                (fun b => { b with
                  refund_id := some refund.refund_id
                  refund_status := some "initiated"
                  refund_amount := some refundAmountInRupees
                  refund_reason := some (jsOr reason
                    "Customer requested cancellation")
                  status := "cancelled" }) db.bookings
              let db2 := { db with bookings := bookings2 }
              let db3 :=
                match selectSingle
                    (fun p => p.cashfree_order_id == some orderId)
                    db2.payments with
                | some paymentRecord =>
                  let newRefundAmount :=
                    jsOrQ paymentRecord.refund_amount 0 + refundAmountInPaise
                  let newRefundStatus : String :=
                    if jsGe newRefundAmount
                        (jsOrQ (some paymentRecord.amount) amounts.1)
                      then "full" else "partial"
                  { db2 with
                    payments := updateWhere
                      (fun p => eqSomeCol p.cashfree_payment_id
                        paymentRecord.cashfree_payment_id)
                      (fun p => { p with
                        refund_status := some newRefundStatus
                        refund_amount := some newRefundAmount
                        refund_ids := some ((paymentRecord.refund_ids.getD [])
                          ++ [refund.refund_id])
                        status := if newRefundStatus == "full"
                          then "refunded" else "partially_refunded" })
                      db2.payments }
                | none => db2
              ⟨.ok refund.refund_id refundAmountInRupees, db3, true⟩

/-- Paid and confirmed booking holding Cashfree order KH-20250101T000000-AAAA. -/
def bookingPaidKH1 : Booking :=
  { Booking.base with
    id := 1
    cashfree_order_id := some "KH-20250101T000000-AAAA"
    internal_bill_id := some "KH-20250101T000000-AAAA"
    payment_status := "paid"
    status := "confirmed"
    amount := 1999 }

/-- Payments-ledger row for that order: captured amount 199900, nothing refunded. -/
def paymentRowKH1 : PaymentRow :=
  { PaymentRow.base with
    cashfree_payment_id := some "pay_1"
    cashfree_order_id := some "KH-20250101T000000-AAAA"
    amount := 199900
    refund_amount := some 0 }

/-- Store holding the paid booking and its ledger row. -/
def dbRefundScenario : DB :=
  { bookings := [bookingPaidKH1], orders := [], payments := [paymentRowKH1] }

/-- REFUND_WEBHOOK event refunding the full captured amount of that order. -/
def evRefundFull : CfEvent :=
  { type := "REFUND_WEBHOOK"
    data := some
      { order := some { order_id := some "KH-20250101T000000-AAAA" }
        payment := some { CfPaymentData.empty with payment_id := some "pay_1" }
        refund := some
          { refund_id := some "rf_1"
            refund_amount := some 199900
            refund_status := some "SUCCESS" } } }

/-- Pending booking awaiting payment for Cashfree order KH-20250101T000000-AAAA. -/
def bookingPendingKH1 : Booking :=
  { Booking.base with
    id := 1
    cashfree_order_id := some "KH-20250101T000000-AAAA"
    internal_bill_id := some "KH-20250101T000000-AAAA"
    payment_status := "pending_payment"
    status := "pending"
    amount := 1999 }

/-- Store holding only the pending booking. -/
def dbSuccessScenario : DB :=
  { bookings := [bookingPendingKH1], orders := [], payments := [] }

/-- PAYMENT_SUCCESS_WEBHOOK event for that order. -/
def evSuccessKH1 : CfEvent :=
  { type := "PAYMENT_SUCCESS_WEBHOOK"
    data := some
      { order := some { order_id := some "KH-20250101T000000-AAAA" }
        payment := some { CfPaymentData.empty with
          payment_id := some "pay_1"
          payment_status := some "SUCCESS"
          payment_method := some "upi"
          payment_amount := some 1999 }
        refund := none } }

/-- Store holding one paid and confirmed booking. -/
def dbPaidScenario : DB :=
  { bookings := [bookingPaidKH1], orders := [], payments := [] }

/-- PAYMENT_FAILED_WEBHOOK event for the same order as the paid booking. -/
def evFailedKH1 : CfEvent :=
  { type := "PAYMENT_FAILED_WEBHOOK"
    data := some
      { order := some { order_id := some "KH-20250101T000000-AAAA" }
        payment := some { CfPaymentData.empty with payment_id := some "pay_1" }
        refund := none } }

/- ===================== Helper lemmas ===================== -/

/- ===================== C1 ===================== -/

/-- Store with a single booking under Cashfree order id KH-1, used to
exercise the verify-payment routes. -/
def dbVerifyScenario : DB :=
  { bookings := [{ Booking.base with id := 1, cashfree_order_id := some "KH-1" }]
    orders := [], payments := [] }

/-- Claim C1 read against the Cashfree verify-payment route, for a given
HMAC function and shared secret: a call succeeds iff the HMAC of
order_id|payment_id equals the supplied signature, and on mismatch the
store is not mutated. -/
def cashfreeVerifySignatureClaim (hmac : String → String → String)
    (secret : String) : Prop :=
  ∀ (req : CfVerifyReq) (payment : CfPaymentFetch) (db : DB),
    (((cashfreeVerifyPayment true req payment db).1.isSuccess = true) ↔
      hmac secret (req.cashfree_order_id ++ "|" ++ req.cashfree_payment_id) =
        req.signature) ∧
    (hmac secret (req.cashfree_order_id ++ "|" ++ req.cashfree_payment_id) ≠
        req.signature →
      (cashfreeVerifyPayment true req payment db).2 = db)

/- ===================== C5 ===================== -/

/-- Fully-refunded paid booking used for the cancel witness. -/
def bookingCancelW : Booking :=
  { Booking.base with
    id := 7
    payment_status := "paid"
    status := "confirmed"
    cashfree_order_id := some "KH-2"
    amount := 1999 }

/-- Store for the cancel witness. -/
def dbCancelW : DB := { bookings := [bookingCancelW], orders := [], payments := [] }

/-- Gateway view for the cancel witness: order of 100 paise already refunded
in full, so the remainder is zero. -/
def envCancelW : CancelEnv :=
  { orderFetch := Except.ok { order_amount := some 100 }
    refundsFetch := Except.ok [{ refund_amount := some 100 }]
    refundCreate := Except.error { message := "unused" } }

/- ===================== C7 ===================== -/

/-- Valid slot-details block used by the create-order witnesses. -/
def sdW : SlotDetails :=
  { customerName := "Asha", customerEmail := "a@b.c"
    customerPhone := "9876543210", customerAddress := none
    bookingDate := "2026-01-01", bookingTimeSlot := "11am-1pm"
    selectedActivities := some ["Jewelry Making"], comboName := none
    participants := some 2, notes := none }

/-- The empty record store. -/
def dbEmpty : DB := { bookings := [], orders := [], payments := [] }

/- ===================== C8 ===================== -/

/-- Slot details with a phone that does not normalize to 10 digits. -/
def sdBadPhoneW : SlotDetails := { sdW with customerPhone := "12345" }

/- ===================== C9 ===================== -/

/-- Refund webhook event carrying a refund object but no payment object. -/
def evRefundNoPayment : CfEvent :=
  { type := "REFUND_WEBHOOK"
    data := some
      { order := some { order_id := some "KH-1" }
        payment := none
        refund := some
          { refund_id := some "rf_9"
            refund_amount := some 100
            refund_status := some "SUCCESS" } } }

/- ===================== C10 ===================== -/

/- ===================== Theorems ===================== -/

/-- C6: a slot label appears in the available list iff it is in the
activity's fixed slot list and is not held by any active (pending or
confirmed, non-refunded) booking on that exact date that matches the
activity; hence cancelling or refunding the sole holder frees the slot. -/
theorem availableSlots_mem_iff (activity_name booking_date slot : String)
    (bookings : List Booking) :
    slot ∈ (availableSlots activity_name booking_date bookings).available_slots ↔
      slot ∈ slotsFor activity_name ∧
        ¬ slotHeld activity_name booking_date slot bookings := by
  simp only [availableSlots, slotHeld, List.mem_filter, Bool.not_eq_true',
    decide_eq_false_iff_not, List.mem_map, List.mem_filter, activeOnDate,
    Bool.and_eq_true, Bool.or_eq_true, beq_iff_eq, bne_iff_ne]
  constructor
  · rintro ⟨hmem, hno⟩
    refine ⟨hmem, ?_⟩
    rintro ⟨b, hb, hdate, hstatus, hpay, hmatch, hslot⟩
    exact hno ⟨b, ⟨⟨hb, ⟨⟨hdate, hstatus⟩, hpay⟩⟩, hmatch⟩, hslot⟩
  · rintro ⟨hmem, hno⟩
    refine ⟨hmem, ?_⟩
    rintro ⟨b, ⟨⟨hb, ⟨⟨hdate, hstatus⟩, hpay⟩⟩, hmatch⟩, hslot⟩
    exact hno ⟨b, hb, hdate, hstatus, hpay, hmatch, hslot⟩

/-- C2: delivering the same full-amount refund webhook twice is accepted both
times and drives the recorded refund aggregate to 399800, exceeding the
captured amount 199900; nothing is rejected and the totals are mutated, so
the sum of recorded refund amounts does exceed the original captured amount. -/
theorem refundWebhook_replay_exceeds_captured :
    (processWebhookEvent evRefundFull dbRefundScenario).1 = WebhookResp.ok ∧
    (processWebhookEvent evRefundFull dbRefundScenario).2.payments.map
      (fun p => p.refund_amount) = [some 199900] ∧
    (processWebhookEvent evRefundFull
      (processWebhookEvent evRefundFull dbRefundScenario).2).1 = WebhookResp.ok ∧
    (processWebhookEvent evRefundFull
      (processWebhookEvent evRefundFull dbRefundScenario).2).2.payments.map
      (fun p => p.refund_amount) = [some 399800] ∧
    dbRefundScenario.payments.map (fun p => p.amount) = [199900] ∧
    (199900 : ℚ) < 399800 := by
  refine ⟨?_, ?_, ?_, ?_, ?_, by norm_num⟩ <;>
  · simp +decide only [processWebhookEvent, CfEvent.orderIdOf, CfEvent.paymentDataOf,
      CfEvent.refundDataOf, CfPaymentData.empty, CfRefundData.empty,
      jsTruthyOpt, jsOr, jsOrStr, jsOrQ, jsTruthyQ, jsGe, isDIYOrderId,
      jsStartsWith, selectSingle, updateWhere, evRefundFull, dbRefundScenario,
      paymentRowKH1, bookingPaidKH1, Booking.base, PaymentRow.base, Rat.blt,
      List.filter, List.map, Option.getD, Option.bind]
    try norm_num

/-- C3: replaying the same PAYMENT_SUCCESS_WEBHOOK leaves the booking row
unchanged but appends a second identical payments-ledger row for the same
gateway payment id, because the insert is unconditional (no dedupe on
cashfree_payment_id). -/
theorem successWebhook_replay_duplicates_payment_row :
    (processWebhookEvent evSuccessKH1 dbSuccessScenario).2.payments.length = 1 ∧
    (processWebhookEvent evSuccessKH1
      (processWebhookEvent evSuccessKH1 dbSuccessScenario).2).2.payments.length = 2 ∧
    (processWebhookEvent evSuccessKH1
      (processWebhookEvent evSuccessKH1 dbSuccessScenario).2).2.payments.map
      (fun p => p.cashfree_payment_id) = [some "pay_1", some "pay_1"] ∧
    (processWebhookEvent evSuccessKH1
      (processWebhookEvent evSuccessKH1 dbSuccessScenario).2).2.bookings =
      (processWebhookEvent evSuccessKH1 dbSuccessScenario).2.bookings ∧
    (processWebhookEvent evSuccessKH1
      (processWebhookEvent evSuccessKH1 dbSuccessScenario).2).1 = WebhookResp.ok := by
  refine ⟨?_, ?_, ?_, ?_, ?_⟩ <;>
  · simp +decide only [processWebhookEvent, CfEvent.orderIdOf, CfEvent.paymentDataOf,
      CfEvent.refundDataOf, CfPaymentData.empty, CfRefundData.empty,
      jsTruthyOpt, jsOr, jsOrStr, jsOrQ, jsTruthyQ, jsGe, isDIYOrderId,
      jsStartsWith, selectSingle, updateWhere, evSuccessKH1, dbSuccessScenario,
      bookingPendingKH1, Booking.base, PaymentRow.base, Rat.blt,
      mkWebhookPaymentRowBooking, List.filter, List.map, List.length,
      Option.getD, Option.bind]
    try norm_num

/-- C4: a PAYMENT_FAILED_WEBHOOK processed after the booking is already paid
unconditionally downgrades it to payment_status failed and status pending:
paid is not terminal with respect to failed. -/
theorem failedWebhook_downgrades_paid_booking :
    dbPaidScenario.bookings.map (fun b => (b.payment_status, b.status)) =
      [("paid", "confirmed")] ∧
    (processWebhookEvent evFailedKH1 dbPaidScenario).2.bookings.map
      (fun b => (b.payment_status, b.status)) = [("failed", "pending")] ∧
    (processWebhookEvent evFailedKH1 dbPaidScenario).1 = WebhookResp.ok := by
  refine ⟨?_, ?_, ?_⟩ <;>
  · simp +decide only [processWebhookEvent, CfEvent.orderIdOf, CfEvent.paymentDataOf,
      CfEvent.refundDataOf, CfPaymentData.empty, CfRefundData.empty,
      jsTruthyOpt, jsOr, jsOrStr, jsOrQ, jsTruthyQ, jsGe, isDIYOrderId,
      jsStartsWith, selectSingle, updateWhere, evFailedKH1, dbPaidScenario,
      bookingPaidKH1, Booking.base, PaymentRow.base, Rat.blt,
      List.filter, List.map, Option.getD, Option.bind]

/-- A nonempty string is not isEmpty. -/
theorem isEmpty_false_of_ne (s : String) (h : s ≠ "") : s.isEmpty = false := by
  cases h2 : s.isEmpty
  · rfl
  · exact absurd ((String.isEmpty_iff s).mp h2) h

/-- The boolean jsLe agrees with the rational order. -/
theorem jsLe_iff (a b : ℚ) : jsLe a b = true ↔ a ≤ b := by
  unfold jsLe
  rw [Bool.not_eq_true']
  exact Iff.rfl

/-- Character data of a string concatenation. -/
theorem data_append (s t : String) : (s ++ t).data = s.data ++ t.data := by
  cases s; cases t; rfl

/-- C1 counterexample: no HMAC function and secret make the Cashfree
verify-payment route signature-gated; the route never reads a signature, so
calls that differ only in the supplied signature both succeed. -/
theorem cashfreeVerify_not_signature_gated :
    ¬ ∃ (hmac : String → String → String) (secret : String),
      cashfreeVerifySignatureClaim hmac secret := by
  rintro ⟨hmac, secret, H⟩
  obtain ⟨iffA, -⟩ := H ⟨"KH-1", "pay_1", "A"⟩ ⟨"SUCCESS", some "upi"⟩
    dbVerifyScenario
  obtain ⟨iffB, -⟩ := H ⟨"KH-1", "pay_1", "B"⟩ ⟨"SUCCESS", some "upi"⟩
    dbVerifyScenario
  have hA : hmac secret ("KH-1" ++ "|" ++ "pay_1") = "A" := iffA.mp rfl
  have hB : hmac secret ("KH-1" ++ "|" ++ "pay_1") = "B" := iffB.mp rfl
  have : ("A" : String) = "B" := hA.symm.trans hB
  exact absurd this (by decide)

/-- The regular update of the Razorpay verify route never produces an
InvalidSignature response. -/
theorem razorpayRegularVerify_fst_ne_invalid (req : RzpVerifyReq)
    (payment : RzpPayment) (db : DB) :
    (razorpayRegularVerify req payment db).1 ≠
      RzpVerifyResult.invalidSignature := by
  unfold razorpayRegularVerify
  dsimp only
  split <;> simp

/-- The post-signature processing of the Razorpay verify route never
produces an InvalidSignature response. -/
theorem razorpayVerifyAfterSignature_ne_invalid (req : RzpVerifyReq)
    (payment : RzpPayment) (db : DB) :
    (razorpayVerifyAfterSignature req payment db).1 ≠
      RzpVerifyResult.invalidSignature := by
  unfold razorpayVerifyAfterSignature
  split
  · split
    · dsimp only
      split <;> simp
    · exact razorpayRegularVerify_fst_ne_invalid req payment db
  · exact razorpayRegularVerify_fst_ne_invalid req payment db

/-- C1 amended: the Razorpay verify-payment route (with complete fields)
returns InvalidSignature with an untouched store exactly when the
recomputed HMAC of order_id|payment_id differs from the supplied signature,
while the Cashfree verify-payment route never reads a signature, so its
outcome is unchanged under any replacement of the supplied signature. -/
theorem verifyPayment_signature_amended
    (hmac : String → String → String) (secret : String)
    (req : RzpVerifyReq) (payment : RzpPayment) (db : DB)
    (h1 : req.razorpay_order_id ≠ "") (h2 : req.razorpay_payment_id ≠ "")
    (h3 : req.razorpay_signature ≠ "")
    (creq : CfVerifyReq) (sig2 : String) (cpay : CfPaymentFetch) (cdb : DB) :
    ((razorpayVerifyPayment hmac secret true req payment db =
        (RzpVerifyResult.invalidSignature, db)) ↔
      hmac secret (req.razorpay_order_id ++ "|" ++ req.razorpay_payment_id) ≠
        req.razorpay_signature) ∧
    cashfreeVerifyPayment true { creq with signature := sig2 } cpay cdb =
      cashfreeVerifyPayment true creq cpay cdb := by
  constructor
  · have hk1 := isEmpty_false_of_ne _ h1
    have hk2 := isEmpty_false_of_ne _ h2
    have hk3 := isEmpty_false_of_ne _ h3
    unfold razorpayVerifyPayment
    simp only [hk1, hk2, hk3, Bool.or_self, Bool.or_false, Bool.not_true,
      Bool.not_false, Bool.false_or, if_false, ite_false, Bool.false_eq_true,
      if_true]
    cases hq : (hmac secret (req.razorpay_order_id ++ "|" ++
        req.razorpay_payment_id) == req.razorpay_signature) with
    | true =>
      have heq : hmac secret (req.razorpay_order_id ++ "|" ++
          req.razorpay_payment_id) = req.razorpay_signature := by
        exact beq_iff_eq.mp hq
      simp only [bne, hq, Bool.not_true, Bool.false_eq_true, if_false]
      constructor
      · intro habs
        have hfst := congrArg Prod.fst habs
        exact absurd hfst (razorpayVerifyAfterSignature_ne_invalid req payment db)
      · intro hne
        exact absurd heq hne
    | false =>
      have hne : hmac secret (req.razorpay_order_id ++ "|" ++
          req.razorpay_payment_id) ≠ req.razorpay_signature := by
        intro heq
        rw [heq] at hq
        simp at hq
      simp only [bne, hq, Bool.not_false, if_true]
      exact iff_of_true (by trivial) hne
  · rfl

/-- Witness for the amended C1 theorem at concrete inputs. -/
theorem verifyPayment_signature_amended_witness :
    ((razorpayVerifyPayment (fun k m => k ++ ":" ++ m) "sek" true
        ⟨"KH-1", "pay_1", "SIGX"⟩ ⟨"captured", "upi"⟩ dbVerifyScenario =
        (RzpVerifyResult.invalidSignature, dbVerifyScenario)) ↔
      (fun k m => k ++ ":" ++ m) "sek" ("KH-1" ++ "|" ++ "pay_1") ≠ "SIGX") ∧
    cashfreeVerifyPayment true
        { (⟨"KH-1", "pay_1", "A"⟩ : CfVerifyReq) with signature := "B" }
        ⟨"SUCCESS", some "upi"⟩ dbVerifyScenario =
      cashfreeVerifyPayment true (⟨"KH-1", "pay_1", "A"⟩ : CfVerifyReq)
        ⟨"SUCCESS", some "upi"⟩ dbVerifyScenario :=
  verifyPayment_signature_amended (fun k m => k ++ ":" ++ m) "sek"
    ⟨"KH-1", "pay_1", "SIGX"⟩ ⟨"captured", "upi"⟩ dbVerifyScenario
    (by decide) (by decide) (by decide)
    ⟨"KH-1", "pay_1", "A"⟩ "B" ⟨"SUCCESS", some "upi"⟩ dbVerifyScenario

/-- C5: each cancel-booking precondition failure is its own distinct error
and leaves the store untouched with no refund request sent: missing booking
gives NotFound, a non-paid booking gives NotRefundable, an already
cancelled booking gives AlreadyCancelled, and a refundable remainder of at
most zero gives NothingToRefund. -/
theorem cancelBooking_preconditions (env : CancelEnv) (booking_id : Nat)
    (reason : Option String) (db : DB) :
    (selectSingle (fun b => b.id == booking_id) db.bookings = none →
      cancelBooking true env booking_id reason db =
        ⟨CancelResult.notFound, db, false⟩) ∧
    (∀ b, selectSingle (fun b => b.id == booking_id) db.bookings = some b →
      b.payment_status ≠ "paid" →
      cancelBooking true env booking_id reason db =
        ⟨CancelResult.notRefundable, db, false⟩) ∧
    (∀ b, selectSingle (fun b => b.id == booking_id) db.bookings = some b →
      b.payment_status = "paid" → b.status = "cancelled" →
      cancelBooking true env booking_id reason db =
        ⟨CancelResult.alreadyCancelled, db, false⟩) ∧
    (∀ b oid, selectSingle (fun b => b.id == booking_id) db.bookings = some b →
      b.payment_status = "paid" → b.status ≠ "cancelled" →
      jsOrOpt b.cashfree_order_id b.razorpay_order_id = some oid → oid ≠ "" →
      (cancelRefundAmounts env oid b db.payments).1 -
        (cancelRefundAmounts env oid b db.payments).2 ≤ 0 →
      cancelBooking true env booking_id reason db =
        ⟨CancelResult.nothingToRefund, db, false⟩) := by
  refine ⟨?_, ?_, ?_, ?_⟩
  · intro hsel
    unfold cancelBooking
    rw [hsel]
    rfl
  · intro b hsel hps
    unfold cancelBooking
    rw [hsel]
    have hbne : (b.payment_status != "paid") = true := by
      simp [bne_iff_ne, hps]
    simp only [hbne, if_true]
    rfl
  · intro b hsel hps hst
    unfold cancelBooking
    rw [hsel]
    have hbne : (b.payment_status != "paid") = false := by
      simp [hps]
    have hbeq : (b.status == "cancelled") = true := by
      simp [hst]
    simp only [hbne, hbeq, Bool.false_eq_true, if_false, if_true]
    rfl
  · intro b oid hsel hps hst hoid hne hle
    unfold cancelBooking
    rw [hsel]
    have hbne : (b.payment_status != "paid") = false := by
      simp [hps]
    have hbeq : (b.status == "cancelled") = false := by
      simp [hst]
    have htr : jsTruthyOpt (jsOrOpt b.cashfree_order_id b.razorpay_order_id) =
        true := by
      rw [hoid]
      simp [jsTruthyOpt, isEmpty_false_of_ne oid hne]
    have hjs : jsLe ((cancelRefundAmounts env oid b db.payments).1 -
        (cancelRefundAmounts env oid b db.payments).2) 0 = true :=
      (jsLe_iff _ _).mpr hle
    simp only [hbne, hbeq, htr, hoid, Bool.false_eq_true, if_false,
      Bool.not_true, Option.getD_some, hjs, if_true]
    simp [jsTruthyOpt, isEmpty_false_of_ne oid hne]

/-- Witness for the C5 theorem: the NothingToRefund precondition at a
concrete input. -/
theorem cancelBooking_preconditions_witness :
    cancelBooking true envCancelW 7 none dbCancelW =
      ⟨CancelResult.nothingToRefund, dbCancelW, false⟩ :=
  (cancelBooking_preconditions envCancelW 7 none dbCancelW).2.2.2
    bookingCancelW "KH-2" rfl rfl (by decide) rfl (by decide)
    (by simp [cancelRefundAmounts, envCancelW, jsOrQ])

/-- C7: when the gateway order-creation call fails the store is untouched
and the gateway error message extracted from its structured payload is
returned (in particular the gateway message itself whenever it carries
one); when the gateway call succeeds with a payment session id the handler
inserts exactly one pending booking row and touches nothing else. -/
theorem createOrder_gateway_frame (amount : JsAmount)
    (slotDetails : Option SlotDetails) (userId tokenEmail : Option String)
    (parseFloat : String → Option ℚ) (timestamp random : String)
    (gw : Except CfErrorData CfSessionResp) (newId : Nat) (db : DB) :
    (∀ e, gw = Except.error e →
      (createOrder true amount slotDetails userId tokenEmail parseFloat
        timestamp random gw newId db).db = db ∧
      ((createOrder true amount slotDetails userId tokenEmail parseFloat
          timestamp random gw newId db).gatewayCalled = true →
        (createOrder true amount slotDetails userId tokenEmail parseFloat
          timestamp random gw newId db).result =
          CreateOrderResult.gatewayError (extractCfErrorMessage e))) ∧
    (∀ (m : String) (eo : Option String), m ≠ "" →
      extractCfErrorMessage (CfErrorData.obj (some m) eo) = m) ∧
    (∀ resp sid, gw = Except.ok resp →
      jsOrOpt resp.payment_session_id resp.data_payment_session_id = some sid →
      sid ≠ "" →
      (createOrder true amount slotDetails userId tokenEmail parseFloat
        timestamp random gw newId db).gatewayCalled = true →
      ∃ row,
        (createOrder true amount slotDetails userId tokenEmail parseFloat
          timestamp random gw newId db).db.bookings = db.bookings ++ [row] ∧
        row.payment_status = "pending_payment" ∧
        row.status = "pending" ∧
        row.internal_bill_id = some (mkBookingOrderId timestamp random) ∧
        row.cashfree_order_id = some (mkBookingOrderId timestamp random) ∧
        (createOrder true amount slotDetails userId tokenEmail parseFloat
          timestamp random gw newId db).db.orders = db.orders ∧
        (createOrder true amount slotDetails userId tokenEmail parseFloat
          timestamp random gw newId db).db.payments = db.payments ∧
        (createOrder true amount slotDetails userId tokenEmail parseFloat
          timestamp random gw newId db).result =
          CreateOrderResult.ok (mkBookingOrderId timestamp random) sid) := by
  refine ⟨?_, ?_, ?_⟩
  · intro e hgw
    subst hgw
    constructor
    · unfold createOrder
      repeat' (first | split | dsimp only)
      all_goals simp_all
    · unfold createOrder
      repeat' (first | split | dsimp only)
      all_goals simp_all
  · intro m eo hm
    simp [extractCfErrorMessage, jsOr, isEmpty_false_of_ne m hm]
  · intro resp sid hgw hsid hsne hcalled
    subst hgw
    cases slotDetails with
    | none => simp [createOrder] at hcalled
    | some sd =>
      cases hta : jsTruthyAmount amount with
      | false => simp [createOrder, hta] at hcalled
      | true =>
        cases hmf : (sd.customerName.isEmpty || sd.customerEmail.isEmpty ||
            sd.customerPhone.isEmpty || sd.bookingDate.isEmpty ||
            sd.bookingTimeSlot.isEmpty) with
        | true => simp [createOrder, hta, hmf] at hcalled
        | false =>
          by_cases hph : (normalizePhone sd.customerPhone).length = 10
          · cases hpa : parseAmount parseFloat amount with
            | none => simp [createOrder, hta, hmf, hph, hpa] at hcalled
            | some q =>
              cases hle : jsLe q 0 with
              | true => simp [createOrder, hta, hmf, hph, hpa, hle] at hcalled
              | false =>
                refine ⟨mkBookingRow newId userId
                  (jsOr tokenEmail sd.customerEmail) sd q
                  (mkBookingOrderId timestamp random) sid,
                  ?_, rfl, rfl, rfl, rfl, ?_, ?_, ?_⟩ <;>
                simp [createOrder, hta, hmf, hph, hpa, hle, hsid, jsTruthyOpt,
                  isEmpty_false_of_ne sid hsne]
          · simp [createOrder, hta, hmf, hph] at hcalled

/-- Witness for the C7 theorem: a successful gateway call at a concrete
valid request inserts exactly one pending booking row. -/
theorem createOrder_gateway_frame_witness :
    ∃ row,
      (createOrder true (JsAmount.num 1999) (some sdW) none none
        (fun _ => none) "20250101T000000" "ZZZZ"
        (Except.ok ⟨some "sess_1", none⟩) 5 dbEmpty).db.bookings =
        dbEmpty.bookings ++ [row] ∧
      row.payment_status = "pending_payment" ∧
      row.status = "pending" ∧
      row.internal_bill_id = some (mkBookingOrderId "20250101T000000" "ZZZZ") ∧
      row.cashfree_order_id = some (mkBookingOrderId "20250101T000000" "ZZZZ") ∧
      (createOrder true (JsAmount.num 1999) (some sdW) none none
        (fun _ => none) "20250101T000000" "ZZZZ"
        (Except.ok ⟨some "sess_1", none⟩) 5 dbEmpty).db.orders =
        dbEmpty.orders ∧
      (createOrder true (JsAmount.num 1999) (some sdW) none none
        (fun _ => none) "20250101T000000" "ZZZZ"
        (Except.ok ⟨some "sess_1", none⟩) 5 dbEmpty).db.payments =
        dbEmpty.payments ∧
      (createOrder true (JsAmount.num 1999) (some sdW) none none
        (fun _ => none) "20250101T000000" "ZZZZ"
        (Except.ok ⟨some "sess_1", none⟩) 5 dbEmpty).result =
        CreateOrderResult.ok (mkBookingOrderId "20250101T000000" "ZZZZ")
          "sess_1" :=
  (createOrder_gateway_frame (JsAmount.num 1999) (some sdW) none none
    (fun _ => none) "20250101T000000" "ZZZZ"
    (Except.ok ⟨some "sess_1", none⟩) 5 dbEmpty).2.2
    ⟨some "sess_1", none⟩ "sess_1" rfl rfl (by decide) rfl

/-- C8: with amount and the required slot fields present, the create-order
handler rejects with the phone validation error exactly when the normalized
phone is not 10 digits, in which case nothing is stored and the gateway is
not called; and when the phone is valid but the amount fails to parse to a
positive number the handler rejects with the amount validation error, again
with no store write and no gateway call. -/
theorem createOrder_validation (amount : JsAmount) (sd : SlotDetails)
    (userId tokenEmail : Option String) (parseFloat : String → Option ℚ)
    (timestamp random : String) (gw : Except CfErrorData CfSessionResp)
    (newId : Nat) (db : DB)
    (hta : jsTruthyAmount amount = true)
    (hmf : (sd.customerName.isEmpty || sd.customerEmail.isEmpty ||
      sd.customerPhone.isEmpty || sd.bookingDate.isEmpty ||
      sd.bookingTimeSlot.isEmpty) = false) :
    ((createOrder true amount (some sd) userId tokenEmail parseFloat
        timestamp random gw newId db).result =
        CreateOrderResult.invalidPhone ↔
      (normalizePhone sd.customerPhone).length ≠ 10) ∧
    ((normalizePhone sd.customerPhone).length ≠ 10 →
      (createOrder true amount (some sd) userId tokenEmail parseFloat
        timestamp random gw newId db).db = db ∧
      (createOrder true amount (some sd) userId tokenEmail parseFloat
        timestamp random gw newId db).gatewayCalled = false) ∧
    ((normalizePhone sd.customerPhone).length = 10 →
      (parseAmount parseFloat amount = none ∨
        (∃ q, parseAmount parseFloat amount = some q ∧ q ≤ 0)) →
      (createOrder true amount (some sd) userId tokenEmail parseFloat
        timestamp random gw newId db).result =
        CreateOrderResult.invalidAmount ∧
      (createOrder true amount (some sd) userId tokenEmail parseFloat
        timestamp random gw newId db).db = db ∧
      (createOrder true amount (some sd) userId tokenEmail parseFloat
        timestamp random gw newId db).gatewayCalled = false) := by
  refine ⟨?_, ?_, ?_⟩
  · by_cases hph : (normalizePhone sd.customerPhone).length = 10
    · cases hpa : parseAmount parseFloat amount with
      | none => simp [createOrder, hta, hmf, hph, hpa]
      | some q =>
        cases hle : jsLe q 0 with
        | true => simp [createOrder, hta, hmf, hph, hpa, hle]
        | false =>
          cases gw with
          | error e => simp [createOrder, hta, hmf, hph, hpa, hle]
          | ok resp =>
            cases hts : jsTruthyOpt (jsOrOpt resp.payment_session_id
                resp.data_payment_session_id) with
            | false => simp [createOrder, hta, hmf, hph, hpa, hle, hts]
            | true => simp [createOrder, hta, hmf, hph, hpa, hle, hts]
    · simp [createOrder, hta, hmf, hph]
  · intro hph
    constructor <;> simp [createOrder, hta, hmf, hph]
  · intro hph hbad
    rcases hbad with hpa | ⟨q, hpa, hle⟩
    · refine ⟨?_, ?_, ?_⟩ <;> simp [createOrder, hta, hmf, hph, hpa]
    · have hjs : jsLe q 0 = true := (jsLe_iff q 0).mpr hle
      refine ⟨?_, ?_, ?_⟩ <;> simp [createOrder, hta, hmf, hph, hpa, hjs]

/-- Witness for the C8 theorem at a concrete request with an invalid phone. -/
theorem createOrder_validation_witness :
    ((createOrder true (JsAmount.num 1999) (some sdBadPhoneW) none none
        (fun _ => none) "20250101T000000" "ZZZZ"
        (Except.ok ⟨some "sess_1", none⟩) 5 dbEmpty).result =
        CreateOrderResult.invalidPhone ↔
      (normalizePhone sdBadPhoneW.customerPhone).length ≠ 10) ∧
    ((normalizePhone sdBadPhoneW.customerPhone).length ≠ 10 →
      (createOrder true (JsAmount.num 1999) (some sdBadPhoneW) none none
        (fun _ => none) "20250101T000000" "ZZZZ"
        (Except.ok ⟨some "sess_1", none⟩) 5 dbEmpty).db = dbEmpty ∧
      (createOrder true (JsAmount.num 1999) (some sdBadPhoneW) none none
        (fun _ => none) "20250101T000000" "ZZZZ"
        (Except.ok ⟨some "sess_1", none⟩) 5 dbEmpty).gatewayCalled = false) ∧
    ((normalizePhone sdBadPhoneW.customerPhone).length = 10 →
      (parseAmount (fun _ => none) (JsAmount.num 1999) = none ∨
        (∃ q, parseAmount (fun _ => none) (JsAmount.num 1999) = some q ∧
          q ≤ 0)) →
      (createOrder true (JsAmount.num 1999) (some sdBadPhoneW) none none
        (fun _ => none) "20250101T000000" "ZZZZ"
        (Except.ok ⟨some "sess_1", none⟩) 5 dbEmpty).result =
        CreateOrderResult.invalidAmount ∧
      (createOrder true (JsAmount.num 1999) (some sdBadPhoneW) none none
        (fun _ => none) "20250101T000000" "ZZZZ"
        (Except.ok ⟨some "sess_1", none⟩) 5 dbEmpty).db = dbEmpty ∧
      (createOrder true (JsAmount.num 1999) (some sdBadPhoneW) none none
        (fun _ => none) "20250101T000000" "ZZZZ"
        (Except.ok ⟨some "sess_1", none⟩) 5 dbEmpty).gatewayCalled = false) :=
  createOrder_validation (JsAmount.num 1999) sdBadPhoneW none none
    (fun _ => none) "20250101T000000" "ZZZZ"
    (Except.ok ⟨some "sess_1", none⟩) 5 dbEmpty (by decide) (by decide)

/-- C9: any webhook request that passes signature verification but whose
parsed event lacks a truthy order id or payment id is rejected with the
missing-fields 400 response and the store is untouched; in particular a
refund event without an accompanying payment object is rejected rather
than processed. -/
theorem webhook_missing_ids_rejected
    (hmacB64 : String → String → String) (key : String) (sig : Option String)
    (raw : String) (parse : String → CfEvent) (db : DB)
    (hkey : key ≠ "")
    (hsig : sig = some (hmacB64 key raw))
    (hmissing : jsTruthyOpt (parse raw).orderIdOf = false ∨
      jsTruthyOpt (parse raw).paymentDataOf.payment_id = false) :
    cashfreeWebhook hmacB64 (some key) sig raw parse db =
      (WebhookResp.missingFields, db) := by
  unfold cashfreeWebhook
  have hk : jsTruthyOpt (some key) = true := by
    simp [jsTruthyOpt, isEmpty_false_of_ne key hkey]
  rw [hk, hsig]
  simp only [Bool.not_true, Bool.false_eq_true, if_false, bne_self_eq_false]
  unfold processWebhookEvent
  rcases hmissing with h | h <;> simp [h]

/-- Witness for the C9 theorem: a signed refund webhook without a payment
object is rejected with the missing-fields response and no mutation. -/
theorem webhook_missing_ids_rejected_witness :
    cashfreeWebhook (fun k m => k ++ "|" ++ m) (some "sek")
      (some ((fun k m => k ++ "|" ++ m) "sek" "rawbody")) "rawbody"
      (fun _ => evRefundNoPayment) dbRefundScenario =
      (WebhookResp.missingFields, dbRefundScenario) :=
  webhook_missing_ids_rejected (fun k m => k ++ "|" ++ m) "sek"
    (some ((fun k m => k ++ "|" ++ m) "sek" "rawbody")) "rawbody"
    (fun _ => evRefundNoPayment) dbRefundScenario (by decide) rfl
    (Or.inr rfl)

/-- Character data of a generated booking order id. -/
theorem mkBookingOrderId_data (t r : String) :
    (mkBookingOrderId t r).data =
      'K' :: 'H' :: '-' :: (t.data ++ '-' :: r.data) := by
  unfold mkBookingOrderId
  rw [data_append, data_append, data_append]
  have h1 : "KH-".data = ['K', 'H', '-'] := by decide
  have h2 : "-".data = ['-'] := by decide
  rw [h1, h2]
  simp

/-- Character data of a generated DIY order id. -/
theorem mkDIYOrderId_data (t r : String) :
    (mkDIYOrderId t r).data =
      'K' :: 'H' :: '-' :: 'D' :: 'I' :: 'Y' :: '-' ::
        (t.data ++ '-' :: r.data) := by
  unfold mkDIYOrderId
  rw [data_append, data_append, data_append]
  have h1 : "KH-DIY-".data = ['K', 'H', '-', 'D', 'I', 'Y', '-'] := by decide
  have h2 : "-".data = ['-'] := by decide
  rw [h1, h2]
  simp

/-- A generated DIY order id is always classified as DIY. -/
theorem isDIY_mkDIYOrderId (t r : String) :
    isDIYOrderId (mkDIYOrderId t r) = true := by
  unfold isDIYOrderId jsStartsWith
  rw [mkDIYOrderId_data]
  have h3 : "KH-DIY-".data = ['K', 'H', '-', 'D', 'I', 'Y', '-'] := by decide
  rw [h3]
  simp +decide [List.isPrefixOf]

/-- A generated booking order id whose timestamp part begins with a digit is
never classified as DIY. -/
theorem isDIY_mkBookingOrderId (t r : String) (c : Char) (cs : List Char)
    (ht : t.data = c :: cs) (hc : c.isDigit = true) :
    isDIYOrderId (mkBookingOrderId t r) = false := by
  have hDc : (('D' : Char) == c) = false := by
    cases hq : (('D' : Char) == c) with
    | false => rfl
    | true =>
      have h1 : ('D' : Char) = c := beq_iff_eq.mp hq
      rw [← h1] at hc
      exact absurd hc (by decide)
  unfold isDIYOrderId jsStartsWith
  rw [mkBookingOrderId_data, ht]
  have h3 : "KH-DIY-".data = ['K', 'H', '-', 'D', 'I', 'Y', '-'] := by decide
  rw [h3]
  simp +decide [List.isPrefixOf, hDc]

/-- The success stage on a booking-classified event keeps the orders table. -/
theorem webhookStageSuccess_orders_frame (orderId paymentId : String)
    (pd : CfPaymentData) (db : DB) :
    (webhookStageSuccess false orderId paymentId pd db).orders = db.orders := by
  unfold webhookStageSuccess
  dsimp only
  rw [if_neg Bool.false_ne_true]
  split <;> rfl

/-- The failed stage on a booking-classified event keeps the orders table. -/
theorem webhookStageFailed_orders_frame (orderId paymentId : String)
    (db : DB) :
    (webhookStageFailed false orderId paymentId db).orders = db.orders := rfl

/-- The refund stage keeps the orders table. -/
theorem webhookStageRefund_orders_frame (orderId paymentId : String)
    (rd : CfRefundData) (db : DB) :
    (webhookStageRefund orderId paymentId rd db).orders = db.orders := by
  unfold webhookStageRefund
  dsimp only
  split
  · split <;> rfl
  · rfl

/-- The success stage on a DIY-classified event keeps the bookings table. -/
theorem webhookStageSuccess_bookings_frame (orderId paymentId : String)
    (pd : CfPaymentData) (db : DB) :
    (webhookStageSuccess true orderId paymentId pd db).bookings =
      db.bookings := by
  unfold webhookStageSuccess
  dsimp only
  rw [if_pos rfl]
  split <;> rfl

/-- The failed stage on a DIY-classified event keeps the bookings table. -/
theorem webhookStageFailed_bookings_frame (orderId paymentId : String)
    (db : DB) :
    (webhookStageFailed true orderId paymentId db).bookings = db.bookings :=
  rfl

/-- Webhook events classified as bookings never touch the DIY orders table. -/
theorem processWebhookEvent_orders_frame (ev : CfEvent) (db : DB)
    (h : isDIYOrderId (ev.orderIdOf.getD "") = false) :
    (processWebhookEvent ev db).2.orders = db.orders := by
  unfold processWebhookEvent
  dsimp only
  split
  · rfl
  · simp only [h]
    repeat' split
    all_goals simp only [webhookStageSuccess_orders_frame,
      webhookStageFailed_orders_frame, webhookStageRefund_orders_frame]

/-- Webhook events classified as DIY never touch the bookings table. -/
theorem processWebhookEvent_bookings_frame (ev : CfEvent) (db : DB)
    (h : isDIYOrderId (ev.orderIdOf.getD "") = true) :
    (processWebhookEvent ev db).2.bookings = db.bookings := by
  unfold processWebhookEvent
  dsimp only
  split
  · rfl
  · simp only [h, Bool.not_true, Bool.and_false, Bool.false_eq_true, if_false]
    repeat' split
    all_goals simp only [webhookStageSuccess_bookings_frame,
      webhookStageFailed_bookings_frame]

/-- C10: the Cashfree create-order route stores the same generated KH- id as
internal bill id and gateway order id; DIY ids carry the KH-DIY- prefix;
the webhook classifies an order id as DIY iff it starts with KH-DIY-, so
booking events never touch the orders table and DIY events never touch the
bookings table. -/
theorem orderId_prefix_classification (t r : String) (c : Char)
    (cs : List Char) (ht : t.data = c :: cs) (hc : c.isDigit = true) :
    isDIYOrderId (mkDIYOrderId t r) = true ∧
    isDIYOrderId (mkBookingOrderId t r) = false ∧
    (∀ (newId : Nat) (userId : Option String) (userEmail : String)
      (sd : SlotDetails) (q : ℚ) (sid : String),
      (mkBookingRow newId userId userEmail sd q (mkBookingOrderId t r)
        sid).internal_bill_id = some (mkBookingOrderId t r) ∧
      (mkBookingRow newId userId userEmail sd q (mkBookingOrderId t r)
        sid).cashfree_order_id = some (mkBookingOrderId t r)) ∧
    (∀ (ev : CfEvent) (db : DB),
      ev.orderIdOf = some (mkBookingOrderId t r) →
      (processWebhookEvent ev db).2.orders = db.orders) ∧
    (∀ (ev : CfEvent) (db : DB),
      ev.orderIdOf = some (mkDIYOrderId t r) →
      (processWebhookEvent ev db).2.bookings = db.bookings) := by
  refine ⟨isDIY_mkDIYOrderId t r, isDIY_mkBookingOrderId t r c cs ht hc,
    fun _ _ _ _ _ _ => ⟨rfl, rfl⟩, ?_, ?_⟩
  · intro ev db hev
    refine processWebhookEvent_orders_frame ev db ?_
    rw [hev]
    exact isDIY_mkBookingOrderId t r c cs ht hc
  · intro ev db hev
    refine processWebhookEvent_bookings_frame ev db ?_
    rw [hev]
    exact isDIY_mkDIYOrderId t r

/-- Witness for the C10 theorem at the concrete generated ids. -/
theorem orderId_prefix_classification_witness :
    isDIYOrderId (mkDIYOrderId "20250101T000000" "ZZZZ") = true ∧
    isDIYOrderId (mkBookingOrderId "20250101T000000" "ZZZZ") = false :=
  ⟨(orderId_prefix_classification "20250101T000000" "ZZZZ" '2'
      ['0', '2', '5', '0', '1', '0', '1', 'T', '0', '0', '0', '0', '0', '0']
      (by decide) (by decide)).1,
    (orderId_prefix_classification "20250101T000000" "ZZZZ" '2'
      ['0', '2', '5', '0', '1', '0', '1', 'T', '0', '0', '0', '0', '0', '0']
      (by decide) (by decide)).2.1⟩

end KnowHow
